import Mathlib

/-!
Verification of the chrome-mcp-beta-header module.

The module consists of one module-level mutable boolean
(`chromeInChromeMcpUsed`), pure string/list helpers, and functions that
read or write that boolean.  We embed the module state as an explicit
`Bool` argument: functions that only read the flag take it as an input,
functions that assign it return the new value.  JavaScript strings are
embedded as `List Char`; `String.prototype.startsWith` becomes
`List.isPrefixOf` and `Array.prototype.includes` becomes `List.contains`.
The optional (and in untyped JavaScript possibly non-boolean) field of the
record passed to `restoreSessionState` is embedded as an explicit
JavaScript-value type.
-/

/-- A JavaScript string, embedded as its sequence of characters. -/
abbrev Str := List Char

/-- A JavaScript value that can sit in the optional `chromeInChromeMcpUsed`
field of the record passed to `restoreSessionState`: `undefined` (also the
case of a missing field), an actual boolean, or any non-boolean value. -/
inductive JsVal where
  | undefined
  | boolean (b : Bool)
  | other
deriving DecidableEq

/-- `const CHROME_IN_CHROME_MCP_BETA_HEADER = "browser-use-YYYYMMDD"`. -/
def CHROME_IN_CHROME_MCP_BETA_HEADER : Str := "browser-use-YYYYMMDD".toList

/-- `const CLAUDE_IN_CHROME_MCP_SERVER_NAME = "claude-in-chrome"`. -/
def CLAUDE_IN_CHROME_MCP_SERVER_NAME : Str := "claude-in-chrome".toList

/-- `const CHROME_MCP_TOOL_PREFIX = `mcp__${CLAUDE_IN_CHROME_MCP_SERVER_NAME}__``. -/
def CHROME_MCP_TOOL_PREFIX : Str :=
  "mcp__".toList ++ CLAUDE_IN_CHROME_MCP_SERVER_NAME ++ "__".toList

/-- Initial value of the module-level state:
`let chromeInChromeMcpUsed = false`. -/
def chromeInChromeMcpUsedInit : Bool := false

/-- `isChromeInChromeMcpTool(toolName)`:
`toolName.startsWith(CHROME_MCP_TOOL_PREFIX)`. -/
def isChromeInChromeMcpTool (toolName : Str) : Bool :=
  List.isPrefixOf CHROME_MCP_TOOL_PREFIX toolName

/-- `markChromeInChromeMcpToolUsed()`: assigns `chromeInChromeMcpUsed = true`.
Returns the new value of the module state. -/
def markChromeInChromeMcpToolUsed (_chromeInChromeMcpUsed : Bool) : Bool :=
  true

/-- `hasChromeInChromeMcpBeenUsed()`: returns `chromeInChromeMcpUsed`. -/
def hasChromeInChromeMcpBeenUsed (chromeInChromeMcpUsed : Bool) : Bool :=
  chromeInChromeMcpUsed

/-- `getChromeInChromeMcpBetaHeader()`: the constant header if the flag is
set, otherwise `null` (embedded as `none`). -/
def getChromeInChromeMcpBetaHeader (chromeInChromeMcpUsed : Bool) : Option Str :=
  if chromeInChromeMcpUsed then
    some CHROME_IN_CHROME_MCP_BETA_HEADER
  else
    none

/-- The record returned by `getSessionState`: `{ chromeInChromeMcpUsed: boolean }`. -/
structure SessionState where
  chromeInChromeMcpUsed : Bool
deriving DecidableEq

/-- The record accepted by `restoreSessionState`:
`{ chromeInChromeMcpUsed?: boolean }`; the field may be absent/undefined or
(in untyped calls) non-boolean, hence `JsVal`. -/
structure RestoreInput where
  chromeInChromeMcpUsed : JsVal
deriving DecidableEq

/-- `getSessionState()`: returns `{ chromeInChromeMcpUsed }`. -/
def getSessionState (chromeInChromeMcpUsed : Bool) : SessionState :=
  ⟨chromeInChromeMcpUsed⟩

/-- `restoreSessionState(state)`:
`if (state.chromeInChromeMcpUsed === true) { chromeInChromeMcpUsed = true; }`.
Returns the new value of the module state. -/
def restoreSessionState (state : RestoreInput) (chromeInChromeMcpUsed : Bool) : Bool :=
  if state.chromeInChromeMcpUsed = JsVal.boolean true then
    true
  else
    chromeInChromeMcpUsed

/-- `resetState()`: assigns `chromeInChromeMcpUsed = false`. -/
def resetState : Bool := false

/-- `onToolExecuted(toolName)` (integration file):
`if (isChromeInChromeMcpTool(toolName)) { markChromeInChromeMcpToolUsed(); }`.
Returns the new value of the module state. -/
def onToolExecuted (toolName : Str) (chromeInChromeMcpUsed : Bool) : Bool :=
  if isChromeInChromeMcpTool toolName then
    markChromeInChromeMcpToolUsed chromeInChromeMcpUsed
  else
    chromeInChromeMcpUsed

/-- `addChromeMcpBetaHeaderIfNeeded(existingBetaHeaders)` (integration file):
```
const chromeBetaHeader = getChromeInChromeMcpBetaHeader();
if (chromeBetaHeader && !existingBetaHeaders.includes(chromeBetaHeader)) {
  return [...existingBetaHeaders, chromeBetaHeader];
}
return existingBetaHeaders;
```
JavaScript truthiness of a `string | null` value means: non-null and
non-empty, hence the `!h.isEmpty` conjunct. -/
def addChromeMcpBetaHeaderIfNeeded (chromeInChromeMcpUsed : Bool)
    (existingBetaHeaders : List Str) : List Str :=
  match getChromeInChromeMcpBetaHeader chromeInChromeMcpUsed with
  | some h =>
      if (!h.isEmpty) && (!existingBetaHeaders.contains h) then
        existingBetaHeaders ++ [h]
      else
        existingBetaHeaders
  | none => existingBetaHeaders

/-- The operations of the module, for stating state-transition properties.
Query operations carry the arguments of the corresponding function. -/
inductive Op where
  | markUsed
  | isUsed
  | getMarkerValue
  | exportState
  | importState (st : RestoreInput)
  | appendMarkerIfNeeded (xs : List Str)
  | onToolExecuted (name : Str)
  | isQualifyingTool (name : Str)
  | reset
deriving DecidableEq

/-- Effect of each operation on the module-level flag.  The mutators
(`markUsed`, `importState`, `onToolExecuted`, `reset`) are the functions
whose source bodies assign `chromeInChromeMcpUsed`; every other exported
function contains no assignment to it, so its effect is the identity. -/
def applyOp (op : Op) (chromeInChromeMcpUsed : Bool) : Bool :=
  match op with
  | Op.markUsed => markChromeInChromeMcpToolUsed chromeInChromeMcpUsed
  | Op.isUsed => chromeInChromeMcpUsed
  | Op.getMarkerValue => chromeInChromeMcpUsed
  | Op.exportState => chromeInChromeMcpUsed
  | Op.importState st => restoreSessionState st chromeInChromeMcpUsed
  | Op.appendMarkerIfNeeded _ => chromeInChromeMcpUsed
  | Op.onToolExecuted n => onToolExecuted n chromeInChromeMcpUsed
  | Op.isQualifyingTool _ => chromeInChromeMcpUsed
  | Op.reset => resetState

/-- Running the tool-execution hook over a list of tool names. -/
def runTools (names : List Str) (chromeInChromeMcpUsed : Bool) : Bool :=
  names.foldl (fun st n => onToolExecuted n st) chromeInChromeMcpUsed

/-- Concrete tool names used in witnesses. -/
def navigateTool : Str := "mcp__claude-in-chrome__navigate".toList

def clickTool : Str := "mcp__claude-in-chrome__click".toList

def readPageTool : Str := "mcp__claude-in-chrome__read_page".toList

def computerTool : Str := "mcp__claude-in-chrome__computer".toList

def navigateSuffix : Str := "navigate".toList

/-- The constant beta header is a non-empty string. -/
theorem betaHeader_isEmpty_false : CHROME_IN_CHROME_MCP_BETA_HEADER.isEmpty = false := by
  decide

/-- The constant beta header is not the empty character list. -/
theorem betaHeader_ne_nil : CHROME_IN_CHROME_MCP_BETA_HEADER ≠ [] := by
  decide

/-- C1: for every header-value list `xs`: flag unset gives back `xs`
unchanged; flag set with the marker already in `xs` gives back `xs`
unchanged; otherwise the result is `xs` with the marker appended last.
Elements and order of the input are preserved in every case. -/
theorem addChromeMcpBetaHeaderIfNeeded_correct (u : Bool) (xs : List Str) :
    (u = false → addChromeMcpBetaHeaderIfNeeded u xs = xs) ∧
    (u = true → xs.contains CHROME_IN_CHROME_MCP_BETA_HEADER = true →
      addChromeMcpBetaHeaderIfNeeded u xs = xs) ∧
    (u = true → xs.contains CHROME_IN_CHROME_MCP_BETA_HEADER = false →
      addChromeMcpBetaHeaderIfNeeded u xs = xs ++ [ CHROME_IN_CHROME_MCP_BETA_HEADER ]) := by
  refine ⟨?_, ?_, ?_⟩
  · intro hu; subst hu; rfl
  · intro hu hc; subst hu
    simp at hc
    simp [addChromeMcpBetaHeaderIfNeeded, getChromeInChromeMcpBetaHeader, hc]
  · intro hu hc; subst hu
    simp at hc
    simp [addChromeMcpBetaHeaderIfNeeded, getChromeInChromeMcpBetaHeader, hc,
      betaHeader_ne_nil]

theorem addChromeMcpBetaHeaderIfNeeded_correct_witness :
    addChromeMcpBetaHeaderIfNeeded true [] = [ CHROME_IN_CHROME_MCP_BETA_HEADER ] :=
  (addChromeMcpBetaHeaderIfNeeded_correct true []).2.2 rfl (by decide)

/-- C2: monotonicity of the flag: from a state where the flag is `true`,
every operation other than `reset` leaves it `true`; in particular
`importState` never transitions the flag from `true` to `false`. -/
theorem flag_monotone (op : Op) (h : op ≠ Op.reset) : applyOp op true = true := by
  cases op with
  | importState st => simp [applyOp, restoreSessionState]
  | onToolExecuted n => simp [applyOp, onToolExecuted, markChromeInChromeMcpToolUsed]
  | reset => exact absurd rfl h
  | markUsed => rfl
  | isUsed => rfl
  | getMarkerValue => rfl
  | exportState => rfl
  | appendMarkerIfNeeded xs => rfl
  | isQualifyingTool n => rfl

theorem flag_monotone_witness : applyOp Op.markUsed true = true :=
  flag_monotone Op.markUsed (by decide)

/-- C3: `restoreSessionState` is a total OR-merge: if the record's field is
exactly the boolean `true` it sets the flag to `true`; for every other
value (`false`, undefined/missing, non-boolean) it leaves the flag exactly
as it was — so restoring `{used: false}` over a `true` flag keeps `true`. -/
theorem restoreSessionState_or_merge (st : RestoreInput) (u : Bool) :
    (st.chromeInChromeMcpUsed = JsVal.boolean true → restoreSessionState st u = true) ∧
    (st.chromeInChromeMcpUsed ≠ JsVal.boolean true → restoreSessionState st u = u) := by
  constructor <;> intro h <;> simp [restoreSessionState, h]

theorem restoreSessionState_or_merge_witness :
    restoreSessionState ⟨JsVal.boolean false⟩ true = true :=
  (restoreSessionState_or_merge ⟨JsVal.boolean false⟩ true).2 (by decide)

/-- C4: `isChromeInChromeMcpTool` returns `true` exactly on the strings
that start with the fixed prefix, i.e. the strings of the form
prefix ++ suffix; it is total on all strings (it is a Lean function). -/
theorem isChromeInChromeMcpTool_iff (s : Str) :
    isChromeInChromeMcpTool s = true ↔ ∃ t, s = CHROME_MCP_TOOL_PREFIX ++ t := by
  unfold isChromeInChromeMcpTool
  rw [List.isPrefixOf_iff_prefix]
  constructor
  · intro h
    obtain ⟨t, ht⟩ := h
    exact ⟨t, ht.symm⟩
  · intro h
    obtain ⟨t, ht⟩ := h
    exact ⟨t, ht.symm⟩

theorem isChromeInChromeMcpTool_iff_witness :
    isChromeInChromeMcpTool navigateTool = true :=
  (isChromeInChromeMcpTool_iff navigateTool).mpr ⟨navigateSuffix, by decide⟩

/-- C5: `getChromeInChromeMcpBetaHeader` returns `null` when the flag is
`false` — in particular in the initial state — and the one fixed non-null
constant string when the flag is `true`. -/
theorem getChromeInChromeMcpBetaHeader_correct :
    getChromeInChromeMcpBetaHeader chromeInChromeMcpUsedInit = none ∧
    getChromeInChromeMcpBetaHeader false = none ∧
    getChromeInChromeMcpBetaHeader true = some CHROME_IN_CHROME_MCP_BETA_HEADER :=
  ⟨rfl, rfl, rfl⟩

/-- C6: round-trip: exporting the state at flag value `b` and importing the
exported record on a freshly reset flag yields a state whose query returns
`b`. -/
theorem sessionState_roundTrip (b : Bool) :
    hasChromeInChromeMcpBeenUsed
      (restoreSessionState ⟨JsVal.boolean (getSessionState b).chromeInChromeMcpUsed⟩
        resetState) = b := by
  cases b <;> rfl

/-- C7: `addChromeMcpBetaHeaderIfNeeded` is idempotent: applying it to its
own result yields the same list as applying it once (for either flag
value, in particular once the flag is set). -/
theorem addChromeMcpBetaHeaderIfNeeded_idem (u : Bool) (xs : List Str) :
    addChromeMcpBetaHeaderIfNeeded u (addChromeMcpBetaHeaderIfNeeded u xs) =
      addChromeMcpBetaHeaderIfNeeded u xs := by
  cases u
  · rfl
  · by_cases hm : CHROME_IN_CHROME_MCP_BETA_HEADER ∈ xs
    · simp [addChromeMcpBetaHeaderIfNeeded, getChromeInChromeMcpBetaHeader, hm]
    · simp [addChromeMcpBetaHeaderIfNeeded, getChromeInChromeMcpBetaHeader, hm,
        betaHeader_ne_nil]

/-- C8: `onToolExecuted` sets the flag for qualifying tool names and leaves
it unchanged otherwise; any number of hook calls still yields a single
marker occurrence when appending to an empty list. -/
theorem onToolExecuted_correct (n : Str) (u : Bool) (names : List Str) :
    (isChromeInChromeMcpTool n = true → onToolExecuted n u = true) ∧
    (isChromeInChromeMcpTool n = false → onToolExecuted n u = u) ∧
    (runTools names u = true →
      addChromeMcpBetaHeaderIfNeeded (runTools names u) [] =
        [ CHROME_IN_CHROME_MCP_BETA_HEADER ]) := by
  refine ⟨?_, ?_, ?_⟩
  · intro h
    simp [onToolExecuted, h, markChromeInChromeMcpToolUsed]
  · intro h
    simp [onToolExecuted, h]
  · intro h
    rw [h]
    simp [addChromeMcpBetaHeaderIfNeeded, getChromeInChromeMcpBetaHeader, betaHeader_ne_nil]

theorem onToolExecuted_correct_witness :
    onToolExecuted navigateTool false = true ∧
    addChromeMcpBetaHeaderIfNeeded
        (runTools [navigateTool, clickTool, readPageTool, computerTool] false) [] =
      [ CHROME_IN_CHROME_MCP_BETA_HEADER ] :=
  ⟨(onToolExecuted_correct navigateTool false []).1 (by decide),
   (onToolExecuted_correct navigateTool false
      [navigateTool, clickTool, readPageTool, computerTool]).2.2 (by decide)⟩

/-- C9: frame property: the non-mutating operations (the predicate, the
query, the marker getter, the state export and the header-list builder)
leave the flag unchanged, and the header-list builder returns the input
list either exactly or merely extended at the end, never reordered or
shrunk. -/
theorem frame_queries (u : Bool) (n : Str) (xs : List Str) :
    applyOp (Op.isQualifyingTool n) u = u ∧
    applyOp Op.isUsed u = u ∧
    applyOp Op.getMarkerValue u = u ∧
    applyOp Op.exportState u = u ∧
    applyOp (Op.appendMarkerIfNeeded xs) u = u ∧
    (addChromeMcpBetaHeaderIfNeeded u xs = xs ∨
      addChromeMcpBetaHeaderIfNeeded u xs = xs ++ [ CHROME_IN_CHROME_MCP_BETA_HEADER ]) := by
  refine ⟨rfl, rfl, rfl, rfl, rfl, ?_⟩
  cases u
  · exact Or.inl rfl
  · by_cases hm : CHROME_IN_CHROME_MCP_BETA_HEADER ∈ xs
    · left
      simp [addChromeMcpBetaHeaderIfNeeded, getChromeInChromeMcpBetaHeader, hm]
    · right
      simp [addChromeMcpBetaHeaderIfNeeded, getChromeInChromeMcpBetaHeader, hm,
        betaHeader_ne_nil]

/-- C10: if the input list holds at most one occurrence of the marker, so
does the output of `addChromeMcpBetaHeaderIfNeeded`, and the output holds
exactly one occurrence whenever the flag is set. -/
theorem addChromeMcpBetaHeaderIfNeeded_count (u : Bool) (xs : List Str)
    (h : xs.count CHROME_IN_CHROME_MCP_BETA_HEADER ≤ 1) :
    (addChromeMcpBetaHeaderIfNeeded u xs).count CHROME_IN_CHROME_MCP_BETA_HEADER ≤ 1 ∧
    (u = true →
      (addChromeMcpBetaHeaderIfNeeded u xs).count CHROME_IN_CHROME_MCP_BETA_HEADER = 1) := by
  cases u
  · exact ⟨h, fun hu => by cases hu⟩
  · by_cases hm : CHROME_IN_CHROME_MCP_BETA_HEADER ∈ xs
    · have h1 : 1 ≤ xs.count CHROME_IN_CHROME_MCP_BETA_HEADER :=
        List.one_le_count_iff.mpr hm
      have heq : xs.count CHROME_IN_CHROME_MCP_BETA_HEADER = 1 := Nat.le_antisymm h h1
      constructor
      · simp [addChromeMcpBetaHeaderIfNeeded, getChromeInChromeMcpBetaHeader, hm, heq]
      · intro _
        simp [addChromeMcpBetaHeaderIfNeeded, getChromeInChromeMcpBetaHeader, hm, heq]
    · have h0 : xs.count CHROME_IN_CHROME_MCP_BETA_HEADER = 0 :=
        List.count_eq_zero.mpr hm
      constructor
      · simp [addChromeMcpBetaHeaderIfNeeded, getChromeInChromeMcpBetaHeader, hm,
          betaHeader_ne_nil, h0]
      · intro _
        simp [addChromeMcpBetaHeaderIfNeeded, getChromeInChromeMcpBetaHeader, hm,
          betaHeader_ne_nil, h0]

theorem addChromeMcpBetaHeaderIfNeeded_count_witness :
    (addChromeMcpBetaHeaderIfNeeded true []).count CHROME_IN_CHROME_MCP_BETA_HEADER = 1 :=
  (addChromeMcpBetaHeaderIfNeeded_count true [] (by decide)).2 rfl
